import Mathlib

/-!
Verification development for the DDEX XML validator
(`src/ddex_validator/{models,constants,rules,validator,utils}.py`).

The Python code is shallowly embedded:
* `SeverityLevel`, `ValidationIssue`, `ValidationResult` mirror `models.py`.
* The regular expressions of `constants.py` (`PATTERNS`) become decidable
  character-list matchers; all of them are anchored full-string matchers,
  matching `re.match` with a trailing `$`.
* The business-rule checkers of `rules.py` operate on an explicit XML-tree
  type `XElem`; xpath unions such as `.//X | .//*[local-name()='X']` become
  "all strict descendants whose namespace-stripped tag equals X", which is
  exactly the set those xpaths select, in document order.
* External collaborators (lxml parsing, the xmlschema engine, the clock and
  the filesystem) are passed in as explicit outcomes (`ParseOutcome`,
  `ExternalOutcomes`, `FileReadOutcome`); `validate_string` consumes them
  exactly as `validator.py` consumes the corresponding library results.
* Python floats (duration seconds) are modelled as rationals; the textual
  rendering of numbers inside diagnostic messages is approximated by
  `ratToString`/`toString`, and the single-quote characters that Python puts
  around offending values inside `context` strings are omitted.  No claim
  depends on the wording of a diagnostic string.
-/

/-- `models.SeverityLevel`. -/
inductive SeverityLevel where
  | ERROR
  | WARNING
  | INFO
deriving DecidableEq, Repr

/-- `models.ValidationIssue` (dataclass). -/
structure ValidationIssue where
  severity : SeverityLevel
  message : String
  line_number : Option Nat := none
  column_number : Option Nat := none
  element_path : Option String := none
  error_code : Option String := none
  context : Option String := none
  suggestion : Option String := none
deriving DecidableEq, Repr

/-- `models.ValidationResult` (dataclass).  `validation_time` is a rational
standing for the Python float. -/
structure ValidationResult where
  is_valid : Bool
  errors : List ValidationIssue
  warnings : List ValidationIssue
  info : List ValidationIssue
  message_type : Option String := none
  ddex_version : Option String := none
  validation_time : Option ℚ := none
  file_path : Option String := none
  file_size : Option Nat := none
deriving Repr

/-- `ValidationResult.failure`: one ERROR issue, `is_valid=False`, empty
warnings and info. -/
def ValidationResult.failure (error_message : String) (error_code : Option String) :
    ValidationResult :=
  { is_valid := false
    errors := [{ severity := SeverityLevel.ERROR
                 message := error_message
                 error_code := some (error_code.getD "VALIDATION_FAILED") }]
    warnings := []
    info := [] }

/-! ### String helpers (Python semantics, kernel-friendly) -/

/-- The right-brace character (written via its code point to keep braces out
of the source text). -/
def rbraceChar : Char := Char.ofNat 125

/-- Python truthiness of an optional string (`if elem.text:`): `None` and the
empty string are falsy. -/
def textTruthy : Option String → Bool
  | none => false
  | some s => !(s == "")

def isPySpace (c : Char) : Bool :=
  c == ' ' || c == '\t' || c == '\n' || c == '\r'

/-- Python `str.strip()` (whitespace on both ends). -/
def pyStrip (s : String) : String :=
  String.mk (((s.toList.dropWhile isPySpace).reverse.dropWhile isPySpace).reverse)

/-- Split a character list at every occurrence of `sep`. -/
def splitOnChar (sep : Char) : List Char → List (List Char)
  | [] => [[]]
  | c :: rest =>
    let r := splitOnChar sep rest
    if c == sep then [] :: r
    else
      match r with
      | [] => [[c]]
      | p :: ps => (c :: p) :: ps

/-- `rules._get_element_path` / `utils`: `tag.split(rbrace)[1] if rbrace in tag
else tag` — the local tag name with the namespace part stripped. -/
def stripNs (tag : String) : String :=
  let parts := splitOnChar rbraceChar tag.toList
  match parts with
  | _ :: second :: _ => String.mk second
  | _ => tag

/-- Numeric value of a digit run (Python `int` on a digit string). -/
def natOfDigits (cs : List Char) : Nat :=
  cs.foldl (fun a c => a * 10 + (c.toNat - 48)) 0

/-- Python `"/".join`. -/
def joinSlash : List String → String
  | [] => ""
  | [p] => p
  | p :: rest => p ++ "/" ++ joinSlash rest

def isUpperAlnum (c : Char) : Bool := c.isUpper || c.isDigit

def isHexUpper (c : Char) : Bool := c.isDigit || ('A' ≤ c && c ≤ 'F')

/-! ### `constants.PATTERNS` as decidable matchers -/

/-- `PATTERNS["GRID"]`: `A1[A-Z0-9]{5}[A-Z0-9]{10}[A-Z0-9]` anchored. -/
def matchGRID (s : String) : Bool :=
  match s.toList with
  | 'A' :: '1' :: rest => rest.length == 16 && rest.all isUpperAlnum
  | _ => false

/-- `PATTERNS["ISRC"]`: `[A-Z]{2}[A-Z0-9]{3}[0-9]{7}` anchored. -/
def matchISRC (s : String) : Bool :=
  let cs := s.toList
  cs.length == 12 && (cs.take 2).all Char.isUpper &&
    ((cs.drop 2).take 3).all isUpperAlnum && ((cs.drop 5).all Char.isDigit)

/-- `PATTERNS["ISAN"]`: 12 upper-case hex digits. -/
def matchISAN (s : String) : Bool :=
  s.toList.length == 12 && s.toList.all isHexUpper

/-- `PATTERNS["VISAN"]`: 24 upper-case hex digits. -/
def matchVISAN (s : String) : Bool :=
  s.toList.length == 24 && s.toList.all isHexUpper

/-- `PATTERNS["ICPN"]`: 12 or 13 decimal digits. -/
def matchICPN (s : String) : Bool :=
  (s.toList.length == 12 || s.toList.length == 13) && s.toList.all Char.isDigit

/-- Try to consume `[0-9]+u` at the front; on failure return the input
unchanged.  Each optional group of the DURATION pattern ends in a distinct
letter, so this greedy step agrees with the regex engine. -/
def tryNumUnit (cs : List Char) (u : Char) : List Char :=
  let ds := cs.takeWhile Char.isDigit
  let rest := cs.dropWhile Char.isDigit
  if ds.isEmpty then cs
  else
    match rest with
    | c :: rest2 => if c == u then rest2 else cs
    | [] => cs

/-- Try to consume `[0-9]+(\.[0-9]+)?S` at the front; on failure return the
input unchanged. -/
def trySeconds (cs : List Char) : List Char :=
  let ds := cs.takeWhile Char.isDigit
  let rest := cs.dropWhile Char.isDigit
  if ds.isEmpty then cs
  else
    match rest with
    | 'S' :: r => r
    | '.' :: rest2 =>
      let fs := rest2.takeWhile Char.isDigit
      let rest3 := rest2.dropWhile Char.isDigit
      if fs.isEmpty then cs
      else
        match rest3 with
        | 'S' :: r => r
        | _ => cs
    | _ => cs

/-- `PATTERNS["DURATION"]`: `PT(([0-9]+H)?([0-9]+M)?([0-9]+(\.[0-9]+)?S)?)`
anchored at both ends.  All three components are optional, so the bare
string `PT` matches. -/
def matchDURATION (s : String) : Bool :=
  match s.toList with
  | 'P' :: 'T' :: rest =>
    (trySeconds (tryNumUnit (tryNumUnit rest 'H') 'M')).isEmpty
  | _ => false

/-! ### `rules._parse_duration_to_seconds` -/

/-- `re.search(r"(\d+)u", s)`: scan for the first maximal digit run that is
immediately followed by `u`; `acc` carries the value of the digit run
currently being read. -/
def searchNumBefore (u : Char) (acc : Option Nat) : List Char → Option Nat
  | [] => none
  | c :: rest =>
    if c.isDigit then
      searchNumBefore u (some ((acc.getD 0) * 10 + (c.toNat - 48))) rest
    else if acc.isSome && c == u then acc
    else searchNumBefore u none rest

/-- `re.search(r"([\d.]+)S", s)`: first maximal digit-or-dot run immediately
followed by `S` (the run's characters are returned for float parsing). -/
def searchSecondsRun (acc : Option (List Char)) : List Char → Option (List Char)
  | [] => none
  | c :: rest =>
    if c.isDigit || c == '.' then
      searchSecondsRun (some ((acc.getD []) ++ [c])) rest
    else if acc.isSome && c == 'S' then acc
    else searchSecondsRun none rest

/-- Python `float` on a `[\d.]+` run: at most one dot, at least one digit.
A failure corresponds to the `ValueError` caught in the source. -/
def floatOfRun (cs : List Char) : Option ℚ :=
  match splitOnChar '.' cs with
  | [ds] => if ds.isEmpty then none else some (natOfDigits ds : ℚ)
  | [ds, fs] =>
    if ds.isEmpty && fs.isEmpty then none
    else some ((natOfDigits ds : ℚ) + (natOfDigits fs : ℚ) / (10 ^ fs.length))
  | _ => none

/-- `rules._parse_duration_to_seconds`: strip the `PT` prefix, extract the
hour, minute and second components by regex search, and combine them; a
malformed seconds run (uncatchable for pattern-matched input) yields `none`,
like the caught `ValueError`. -/
def parse_duration_to_seconds (duration : String) : Option ℚ :=
  match duration.toList with
  | 'P' :: 'T' :: rest =>
    let hours := (searchNumBefore 'H' none rest).getD 0
    let minutes := (searchNumBefore 'M' none rest).getD 0
    match searchSecondsRun none rest with
    | none => some ((hours : ℚ) * 3600 + (minutes : ℚ) * 60)
    | some run =>
      match floatOfRun run with
      | none => none
      | some seconds => some ((hours : ℚ) * 3600 + (minutes : ℚ) * 60 + seconds)
  | _ => none

/-- Rendering of a rational into diagnostic text (stands for Python float
formatting; no claim depends on it). -/
def ratToString (q : ℚ) : String :=
  if q.den = 1 then toString q.num else toString q.num ++ "/" ++ toString q.den

/-! ### `rules._validate_icpn_checksum` -/

/-- Digits of a string, or `none` if some character is not a decimal digit
(the caught `ValueError`). -/
def digitsOf (s : String) : Option (List Nat) :=
  if s.toList.all Char.isDigit then some (s.toList.map (fun c => c.toNat - 48))
  else none

/-- Sum of the entries of `ds` at the listed indices. -/
def sumAtIdx (ds : List Nat) (idx : List Nat) : Nat :=
  (idx.map (fun i => ds.getD i 0)).sum

/-- `rules._validate_icpn_checksum`.  For a 12-digit UPC the code sums
`icpn[0],icpn[2],...,icpn[10]` (named `odd_sum` in the source) with weight 3
and `icpn[1],...,icpn[9]` with weight 1; for a 13-digit EAN the weights are
swapped and the index ranges extend to 11.  The check digit is
`(10 - total % 10) % 10`, compared with the last digit. -/
def validate_icpn_checksum (icpn : String) : Bool :=
  match digitsOf icpn with
  | none => false
  | some ds =>
    if ds.length == 12 then
      let odd_sum := sumAtIdx ds [0, 2, 4, 6, 8, 10]
      let even_sum := sumAtIdx ds [1, 3, 5, 7, 9]
      let total := odd_sum * 3 + even_sum
      let check_digit := (10 - total % 10) % 10
      check_digit == ds.getD 11 0
    else if ds.length == 13 then
      let odd_sum := sumAtIdx ds [0, 2, 4, 6, 8, 10]
      let even_sum := sumAtIdx ds [1, 3, 5, 7, 9, 11]
      let total := odd_sum + even_sum * 3
      let check_digit := (10 - total % 10) % 10
      check_digit == ds.getD 12 0
    else false

/-! ### XML tree model and element paths -/

/-- A parsed XML element: full tag (possibly `…ns…`-qualified, the namespace
part delimited by braces inside the string), attributes, text content
(`none` mirrors lxml's `None`), children. -/
inductive XElem : Type where
  | node : String → List (String × String) → Option String → List XElem → XElem

def XElem.tag : XElem → String
  | .node t _ _ _ => t

def XElem.attrs : XElem → List (String × String)
  | .node _ a _ _ => a

def XElem.text : XElem → Option String
  | .node _ _ x _ => x

def XElem.children : XElem → List XElem
  | .node _ _ _ cs => cs

/-- lxml `elem.get(name)` (`None` when the attribute is absent). -/
def XElem.getAttr (e : XElem) (name : String) : Option String :=
  (e.attrs.find? (fun p => p.1 == name)).map Prod.snd

mutual
/-- All strict descendants of an element, in document order, each paired with
its address (list of child indices from that element). -/
def descAddr : XElem → List Nat → List (List Nat × XElem)
  | XElem.node _ _ _ cs, pre => descAddrList cs pre 0

def descAddrList : List XElem → List Nat → Nat → List (List Nat × XElem)
  | [], _, _ => []
  | c :: cs, pre, i =>
    (pre ++ [i], c) :: (descAddr c (pre ++ [i]) ++ descAddrList cs pre (i + 1))
end

/-- One step of the ancestor chain used by `rules._get_element_path`: the
node's full tag, and — unless the node is the root (`getparent() is None`) —
the full tags of all of its parent's children together with the node's own
position among them. -/
structure PathStep where
  tag : String
  parentTags : Option (List String × Nat)
deriving DecidableEq, Repr

/-- The root-to-node chain of `PathStep`s for the node at address `addr`
(`none` for an invalid address).  This materialises the `getparent()` links
the Python loop follows. -/
def chainAux : XElem → List Nat → Option (List PathStep)
  | _, [] => some []
  | e, i :: rest =>
    match e.children.get? i with
    | none => none
    | some c =>
      match chainAux c rest with
      | none => none
      | some l =>
        some ({ tag := c.tag, parentTags := some (e.children.map XElem.tag, i) } :: l)

def chain (root : XElem) (addr : List Nat) : Option (List PathStep) :=
  (chainAux root addr).map
    (fun l => { tag := root.tag, parentTags := none : PathStep } :: l)

/-- Loop body of `rules._get_element_path`: namespace-stripped tag; if the
parent has more than one child with the same full tag, append the node's
1-based position among those same-tag siblings (`siblings.index(current)+1`,
identity-based, i.e. positional). -/
def pathPartOf (st : PathStep) : String :=
  let tagName := stripNs st.tag
  match st.parentTags with
  | none => tagName
  | some (sibTags, i) =>
    let siblings := sibTags.filter (fun t => t == st.tag)
    if siblings.length > 1 then
      let index := ((sibTags.take i).filter (fun t => t == st.tag)).length + 1
      tagName ++ "[" ++ toString index ++ "]"
    else tagName

/-- `rules._get_element_path`: walk from the node up to the root, prepending
each part (`path_parts.insert(0, tag)`), then join with `/` after a leading
`/`. -/
def get_element_path (root : XElem) (addr : List Nat) : Option String :=
  match chain root addr with
  | none => none
  | some steps =>
    let path_parts := steps.reverse.foldl (fun acc st => pathPartOf st :: acc) []
    some ("/" ++ joinSlash path_parts)

/-- The view of an element a business-rule loop works with: its text and its
resolved element path. -/
structure NodeV where
  text : Option String
  path : String
deriving DecidableEq, Repr

/-- The elements selected by ` .//X | .//*[local-name()='X'] `, in document
order, as `NodeV`s (path resolved by `_get_element_path`). -/
def nodesLocal (root : XElem) (name : String) : List NodeV :=
  (descAddr root []).filterMap fun p =>
    if stripNs p.2.tag == name then
      some { text := p.2.text, path := (get_element_path root p.1).getD "" }
    else none

/-- All strict descendant elements (for attribute-based selections). -/
def descElems (root : XElem) : List XElem :=
  (descAddr root []).map Prod.snd

/-! ### `rules.validate_identifiers` -/

def mkEmptyGrid (path : String) : ValidationIssue :=
  { severity := SeverityLevel.ERROR
    message := "GRid元素不能為空"
    element_path := some path
    error_code := some "EMPTY_GRID"
    suggestion := some "請提供有效的GRid值" }

def mkInvalidGrid (raw path : String) : ValidationIssue :=
  { severity := SeverityLevel.ERROR
    message := "無效的GRid格式: " ++ raw
    element_path := some path
    error_code := some "INVALID_GRID"
    context := some ("GRid值: " ++ pyStrip raw)
    suggestion := some "GRid格式應為: A1 + 5個字元 + 10個字元 + 1個字元" }

/-- Loop body for one `GRid` element: empty text is an `EMPTY_GRID` ERROR,
non-empty text failing the pattern is an `INVALID_GRID` ERROR. -/
def gridNodeCheck (n : NodeV) : List ValidationIssue :=
  if textTruthy n.text then
    let raw := n.text.getD ""
    if !(matchGRID (pyStrip raw)) then [mkInvalidGrid raw n.path] else []
  else [mkEmptyGrid n.path]

def mkEmptyIsrc (path : String) : ValidationIssue :=
  { severity := SeverityLevel.ERROR
    message := "ISRC元素不能為空"
    element_path := some path
    error_code := some "EMPTY_ISRC"
    suggestion := some "請提供有效的ISRC值" }

def mkInvalidIsrc (value path : String) : ValidationIssue :=
  { severity := SeverityLevel.ERROR
    message := "無效的ISRC格式: " ++ value
    element_path := some path
    error_code := some "INVALID_ISRC"
    context := some ("ISRC值: " ++ value)
    suggestion := some "ISRC格式應為: 2個國家代碼 + 3個註冊者代碼 + 7個數字" }

def mkSuspiciousIsrcYear (yearCode path : String) : ValidationIssue :=
  { severity := SeverityLevel.WARNING
    message := "ISRC年份代碼可能不正確: " ++ yearCode
    element_path := some path
    error_code := some "SUSPICIOUS_ISRC_YEAR"
    context := some ("年份代碼: " ++ yearCode)
    suggestion := some "請確認ISRC的年份代碼是否正確" }

/-- Loop body for one `ISRC` element.  `currentYear2` is
`datetime.now().year % 100` (the clock is an external input). -/
def isrcNodeCheck (currentYear2 : Nat) (n : NodeV) : List ValidationIssue :=
  if textTruthy n.text then
    let value := pyStrip (n.text.getD "")
    if !(matchISRC value) then [mkInvalidIsrc value n.path]
    else
      let yearCode := (value.toList.drop 5).take 2
      let year := natOfDigits yearCode
      if year > currentYear2 + 10 then
        [mkSuspiciousIsrcYear (String.mk yearCode) n.path]
      else []
  else [mkEmptyIsrc n.path]

def mkInvalidIsan (raw path : String) : ValidationIssue :=
  { severity := SeverityLevel.ERROR
    message := "無效的ISAN格式: " ++ raw
    element_path := some path
    error_code := some "INVALID_ISAN"
    context := some ("ISAN值: " ++ pyStrip raw)
    suggestion := some "ISAN格式應為12個十六進制字符" }

/-- Loop body for one `ISAN` element: note there is no `else` branch in the
source — an empty `ISAN` element produces no issue. -/
def isanNodeCheck (n : NodeV) : List ValidationIssue :=
  if textTruthy n.text then
    let raw := n.text.getD ""
    let value := String.mk ((pyStrip raw).toList.filter (fun c => !(c == '-')))
    if !(matchISAN value) then [mkInvalidIsan raw n.path] else []
  else []

def mkInvalidVisan (raw path : String) : ValidationIssue :=
  { severity := SeverityLevel.ERROR
    message := "無效的V-ISAN格式: " ++ raw
    element_path := some path
    error_code := some "INVALID_VISAN"
    context := some ("V-ISAN值: " ++ pyStrip raw)
    suggestion := some "V-ISAN格式應為24個十六進制字符" }

/-- Loop body for one `VISAN` element: again no `else` branch for empty
text. -/
def visanNodeCheck (n : NodeV) : List ValidationIssue :=
  if textTruthy n.text then
    let raw := n.text.getD ""
    let value := String.mk ((pyStrip raw).toList.filter (fun c => !(c == '-')))
    if !(matchVISAN value) then [mkInvalidVisan raw n.path] else []
  else []

def mkInvalidIcpn (value path : String) : ValidationIssue :=
  { severity := SeverityLevel.ERROR
    message := "無效的ICPN格式: " ++ value
    element_path := some path
    error_code := some "INVALID_ICPN"
    context := some ("ICPN值: " ++ value)
    suggestion := some "ICPN應為12位數字(UPC)或13位數字(EAN)" }

def mkIcpnChecksumWarn (value path : String) : ValidationIssue :=
  { severity := SeverityLevel.WARNING
    message := "ICPN校驗碼可能不正確: " ++ value
    element_path := some path
    error_code := some "INVALID_ICPN_CHECKSUM"
    context := some ("ICPN值: " ++ value)
    suggestion := some "請檢查ICPN的校驗碼是否正確" }

/-- Loop body for one `ICPN` element: format mismatch is an ERROR, a
checksum mismatch on a well-formed value is a WARNING; no `else` branch for
empty text. -/
def icpnNodeCheck (n : NodeV) : List ValidationIssue :=
  if textTruthy n.text then
    let value := pyStrip (n.text.getD "")
    if !(matchICPN value) then [mkInvalidIcpn value n.path]
    else if !(validate_icpn_checksum value) then [mkIcpnChecksumWarn value n.path]
    else []
  else []

/-- `rules.validate_identifiers`: the five per-kind loops in source order. -/
def validate_identifiers (root : XElem) (currentYear2 : Nat) : List ValidationIssue :=
  ((nodesLocal root "GRid").flatMap gridNodeCheck)
  ++ ((nodesLocal root "ISRC").flatMap (isrcNodeCheck currentYear2))
  ++ ((nodesLocal root "ISAN").flatMap isanNodeCheck)
  ++ ((nodesLocal root "VISAN").flatMap visanNodeCheck)
  ++ ((nodesLocal root "ICPN").flatMap icpnNodeCheck)

/-! ### `rules.validate_durations` -/

def mkInvalidDuration (value path : String) : ValidationIssue :=
  { severity := SeverityLevel.ERROR
    message := "無效的時間長度格式: " ++ value
    element_path := some path
    error_code := some "INVALID_DURATION"
    context := some ("Duration值: " ++ value)
    suggestion := some "時間長度格式應為ISO 8601" }

def mkLongDuration (value path : String) (total : ℚ) : ValidationIssue :=
  { severity := SeverityLevel.WARNING
    message := "時間長度異常長: " ++ value ++ " (" ++ ratToString total ++ "秒)"
    element_path := some path
    error_code := some "UNUSUALLY_LONG_DURATION"
    context := some ("總秒數: " ++ ratToString total)
    suggestion := some "請確認時間長度是否正確" }

def mkShortDuration (value path : String) (total : ℚ) : ValidationIssue :=
  { severity := SeverityLevel.WARNING
    message := "時間長度異常短: " ++ value
    element_path := some path
    error_code := some "UNUSUALLY_SHORT_DURATION"
    context := some ("總秒數: " ++ ratToString total)
    suggestion := some "請確認時間長度是否正確" }

/-- Loop body for one `Duration` element. -/
def durationNodeCheck (n : NodeV) : List ValidationIssue :=
  if textTruthy n.text then
    let value := pyStrip (n.text.getD "")
    if !(matchDURATION value) then [mkInvalidDuration value n.path]
    else
      match parse_duration_to_seconds value with
      | none => []
      | some total =>
        if total > 7200 then [mkLongDuration value n.path total]
        else if total < 1 then [mkShortDuration value n.path total]
        else []
  else []

/-- `rules.validate_durations`. -/
def validate_durations (root : XElem) : List ValidationIssue :=
  (nodesLocal root "Duration").flatMap durationNodeCheck

/-! ### `rules._validate_duplicate_identifiers` -/

/-- The stripped value a duplicate scan records for one element (`None` when
the element's text is falsy). -/
def strippedVal (n : NodeV) : Option String :=
  if textTruthy n.text then some (pyStrip (n.text.getD "")) else none

def mkDupIsrc (value path : String) : ValidationIssue :=
  { severity := SeverityLevel.ERROR
    message := "重複的ISRC: " ++ value
    element_path := some path
    error_code := some "DUPLICATE_ISRC"
    context := some ("ISRC值: " ++ value)
    suggestion := some "每個ISRC在訊息中應該是唯一的" }

def mkDupGrid (value path : String) : ValidationIssue :=
  { severity := SeverityLevel.ERROR
    message := "重複的GRid: " ++ value
    element_path := some path
    error_code := some "DUPLICATE_GRID"
    context := some ("GRid值: " ++ value)
    suggestion := some "每個GRid在訊息中應該是唯一的" }

/-- The ISRC half of `_validate_duplicate_identifiers`: `seen` plays the role
of the `isrc_values` dict — the first occurrence of a value is recorded,
every later occurrence raises one `DUPLICATE_ISRC` ERROR carrying the
duplicate's path. -/
def dupCheckIsrc (seen : List String) : List NodeV → List ValidationIssue
  | [] => []
  | n :: rest =>
    match strippedVal n with
    | none => dupCheckIsrc seen rest
    | some v =>
      if v ∈ seen then mkDupIsrc v n.path :: dupCheckIsrc seen rest
      else dupCheckIsrc (v :: seen) rest

/-- The GRid half of `_validate_duplicate_identifiers`. -/
def dupCheckGrid (seen : List String) : List NodeV → List ValidationIssue
  | [] => []
  | n :: rest =>
    match strippedVal n with
    | none => dupCheckGrid seen rest
    | some v =>
      if v ∈ seen then mkDupGrid v n.path :: dupCheckGrid seen rest
      else dupCheckGrid (v :: seen) rest

/-- `rules._validate_duplicate_identifiers`: the ISRC scan then the GRid
scan. -/
def validate_duplicate_identifiers (root : XElem) : List ValidationIssue :=
  dupCheckIsrc [] (nodesLocal root "ISRC") ++ dupCheckGrid [] (nodesLocal root "GRid")

/-! ### `rules._validate_resource_references` -/

/-- Text values collected from `ReleaseResourceReference` and
`ResourceReference` elements (truthy text, stripped), before the `set()`
deduplication. -/
def refTextList (root : XElem) : List String :=
  (descElems root).filterMap fun e =>
    if stripNs e.tag == "ReleaseResourceReference" || stripNs e.tag == "ResourceReference" then
      if textTruthy e.text then some (pyStrip (e.text.getD "")) else none
    else none

/-- Attribute values collected from `.//*[@ResourceReference]`
`| .//*[local-name()='ResourceReference']` — only a truthy
`ResourceReference` attribute contributes. -/
def anchorValList (root : XElem) : List String :=
  (descElems root).filterMap fun e =>
    if e.attrs.any (fun p => p.1 == "ResourceReference")
        || stripNs e.tag == "ResourceReference" then
      match e.getAttr "ResourceReference" with
      | some v => if v == "" then none else some v
      | none => none
    else none

/-- `resource_refs = set(...)` (membership is what matters; Python set
iteration order is arbitrary, deduplication is modelled by `dedup`). -/
def resourceRefs (root : XElem) : List String := (refTextList root).dedup

/-- `resource_anchors = set(...)`. -/
def resourceAnchors (root : XElem) : List String := (anchorValList root).dedup

def mkUndefinedRef (value : String) : ValidationIssue :=
  { severity := SeverityLevel.ERROR
    message := "引用了未定義的資源: " ++ value
    error_code := some "UNDEFINED_RESOURCE_REFERENCE"
    context := some ("資源引用: " ++ value)
    suggestion := some "請確認資源引用對應的資源已定義" }

def mkUnusedRes (value : String) : ValidationIssue :=
  { severity := SeverityLevel.WARNING
    message := "定義了未使用的資源: " ++ value
    error_code := some "UNUSED_RESOURCE"
    context := some ("資源錨點: " ++ value)
    suggestion := some "考慮移除未使用的資源定義" }

/-- `rules._validate_resource_references`: one ERROR per element of
`resource_refs - resource_anchors`, one WARNING per element of
`resource_anchors - resource_refs`. -/
def validate_resource_references (root : XElem) : List ValidationIssue :=
  ((resourceRefs root).filter (fun v => !((resourceAnchors root).contains v))).map
      mkUndefinedRef
  ++ ((resourceAnchors root).filter (fun v => !((resourceRefs root).contains v))).map
      mkUnusedRes

/-! ### `validator.DDEXXMLValidator` orchestration

The external collaborators of `validate_string` (lxml parsing, the
xmlschema engine via `_validate_schema`, version/type detection, the clock,
and the aggregate `_validate_business_rules` call whose checkers partly
depend on the clock and on library exceptions) enter as an explicit
`ExternalOutcomes` record; the merge logic below is exactly the body of
`validate_string` after those calls return. -/

/-- Result of `etree.fromstring`: a tree, an `XMLSyntaxError`, or another
exception. -/
inductive ParseOutcome where
  | ok (root : XElem)
  | syntaxError (msg : String)
  | otherError (msg : String)

/-- The fixed outcomes of the external steps of one `validate_string` call. -/
structure ExternalOutcomes where
  parse : ParseOutcome
  ddex_version : Option String
  message_type : Option String
  schemaIssues : List ValidationIssue
  businessRun : Except String (List ValidationIssue)
  elapsed : Option ℚ

/-- `validator._has_critical_errors`. -/
def has_critical_errors (errors : List ValidationIssue) : Bool :=
  errors.any fun e =>
    match e.error_code with
    | some c =>
      c == "SCHEMA_NOT_FOUND" || c == "SCHEMA_LOAD_ERROR" ||
        c == "XML_SYNTAX_ERROR" || c == "XML_PARSE_ERROR"
    | none => false

/-- The classification loop of `validate_string`: each business issue goes to
the errors, warnings or info bucket by its severity, except that in strict
mode a WARNING is promoted to ERROR and appended to the errors. -/
def classifyIssues (strict_mode : Bool) :
    List ValidationIssue →
      List ValidationIssue × List ValidationIssue × List ValidationIssue
  | [] => ([], [], [])
  | issue :: rest =>
    let r := classifyIssues strict_mode rest
    if issue.severity = SeverityLevel.ERROR then (issue :: r.1, r.2.1, r.2.2)
    else if issue.severity = SeverityLevel.WARNING then
      if strict_mode then
        ({ issue with severity := SeverityLevel.ERROR } :: r.1, r.2.1, r.2.2)
      else (r.1, issue :: r.2.1, r.2.2)
    else (r.1, r.2.1, issue :: r.2.2)

/-- The single ERROR produced when the business-rule call raises. -/
def mkBusinessRuleError (msg : String) : ValidationIssue :=
  { severity := SeverityLevel.ERROR
    message := "業務規則驗證失敗: " ++ msg
    error_code := some "BUSINESS_RULE_ERROR"
    suggestion := some "請檢查XML結構是否正確" }

/-- The `DDEX_VERSION_DETECTED` INFO message appended when a version was
detected. -/
def versionInfoList : Option String → List ValidationIssue
  | some v =>
    [{ severity := SeverityLevel.INFO
       message := "檢測到DDEX版本: " ++ v
       error_code := some "DDEX_VERSION_DETECTED" }]
  | none => []

/-- The `MESSAGE_TYPE_DETECTED` INFO message appended when a message type was
detected. -/
def typeInfoList : Option String → List ValidationIssue
  | some t =>
    [{ severity := SeverityLevel.INFO
       message := "檢測到訊息類型: " ++ t
       error_code := some "MESSAGE_TYPE_DETECTED" }]
  | none => []

/-- `validator.DDEXXMLValidator.validate_string`.  `use_business_rules` is
the already-resolved flag (the per-call override applied to the instance
default). -/
def validate_string (strict_mode use_business_rules : Bool)
    (ext : ExternalOutcomes) : ValidationResult :=
  match ext.parse with
  | ParseOutcome.syntaxError m =>
    ValidationResult.failure ("XML語法錯誤: " ++ m) (some "XML_SYNTAX_ERROR")
  | ParseOutcome.otherError m =>
    ValidationResult.failure ("XML解析失敗: " ++ m) (some "XML_PARSE_ERROR")
  | ParseOutcome.ok _root =>
    let schema_errors := ext.schemaIssues
    let tri :=
      if use_business_rules && !(has_critical_errors schema_errors) then
        match ext.businessRun with
        | Except.ok business_issues => classifyIssues strict_mode business_issues
        | Except.error m => ([mkBusinessRuleError m], [], [])
      else ([], [], [])
    let errors := schema_errors ++ tri.1
    { is_valid := errors.isEmpty
      errors := errors
      warnings := tri.2.1
      info := tri.2.2 ++ versionInfoList ext.ddex_version ++ typeInfoList ext.message_type
      message_type := ext.message_type
      ddex_version := ext.ddex_version
      validation_time := ext.elapsed }

/-- Outcome of the file I/O performed by `validate_file`: the file may be
missing, read cleanly (giving the string-validation inputs and the file
size), hit a decode error whose utf-8-sig retry succeeds or fails, or raise
another read error. -/
inductive FileReadOutcome where
  | notFound
  | readOk (size : Nat) (ext : ExternalOutcomes)
  | decodeRetryOk (size : Nat) (ext : ExternalOutcomes)
  | decodeRetryFailed
  | readError (msg : String)

/-- `validator.DDEXXMLValidator.validate_file`. -/
def validate_file (strict_mode use_business_rules : Bool) (xml_file_path : String)
    (fo : FileReadOutcome) : ValidationResult :=
  match fo with
  | FileReadOutcome.notFound =>
    ValidationResult.failure ("檔案不存在: " ++ xml_file_path) (some "FILE_NOT_FOUND")
  | FileReadOutcome.readOk size ext =>
    let r := validate_string strict_mode use_business_rules ext
    { r with file_path := some xml_file_path, file_size := some size }
  | FileReadOutcome.decodeRetryOk size ext =>
    let r := validate_string strict_mode use_business_rules ext
    { r with file_path := some xml_file_path, file_size := some size }
  | FileReadOutcome.decodeRetryFailed =>
    ValidationResult.failure ("無法讀取檔案，編碼錯誤: " ++ xml_file_path)
      (some "FILE_ENCODING_ERROR")
  | FileReadOutcome.readError m =>
    ValidationResult.failure ("讀取檔案時發生錯誤: " ++ m) (some "FILE_READ_ERROR")

/-! ### Helper lemmas -/

theorem classify_strict_warnings_nil (l : List ValidationIssue) :
    (classifyIssues true l).2.1 = [] := by
  induction l with
  | nil => rfl
  | cons issue rest ih =>
    cases hs : issue.severity <;> simp [classifyIssues, hs, ih]

theorem classify_strict_errors_length (l : List ValidationIssue) :
    (classifyIssues true l).1.length =
      (classifyIssues false l).1.length + (classifyIssues false l).2.1.length := by
  induction l with
  | nil => rfl
  | cons issue rest ih =>
    cases hs : issue.severity <;> simp [classifyIssues, hs, ih] <;> omega

theorem classify_strict_errors_mem (l : List ValidationIssue) (e : ValidationIssue)
    (h : e ∈ (classifyIssues false l).1) : e ∈ (classifyIssues true l).1 := by
  induction l with
  | nil => exact h
  | cons issue rest ih =>
    cases hs : issue.severity <;> simp only [classifyIssues, hs] at h ⊢ <;>
      simp only [reduceIte] at h ⊢
    · rcases List.mem_cons.mp h with h | h
      · exact List.mem_cons.mpr (Or.inl h)
      · exact List.mem_cons.mpr (Or.inr (ih h))
    · exact List.mem_cons_of_mem _ (ih h)
    · exact ih h

theorem vs_is_valid_iff (strict ubr : Bool) (ext : ExternalOutcomes) :
    (validate_string strict ubr ext).is_valid = true ↔
      (validate_string strict ubr ext).errors = [] := by
  cases hp : ext.parse <;>
    simp [validate_string, hp, ValidationResult.failure, List.isEmpty_iff]

/-- C1: for every result returned by `validate_string` or `validate_file`
(over all outcomes of the external steps), `is_valid` is true iff the error
list is empty, whatever the warnings and info lists contain. -/
theorem c1_is_valid_iff_no_errors (strict ubr : Bool) (ext : ExternalOutcomes)
    (path : String) (fo : FileReadOutcome) :
    ((validate_string strict ubr ext).is_valid = true ↔
      (validate_string strict ubr ext).errors = [])
    ∧ ((validate_file strict ubr path fo).is_valid = true ↔
      (validate_file strict ubr path fo).errors = []) := by
  refine ⟨vs_is_valid_iff strict ubr ext, ?_⟩
  cases fo with
  | notFound => simp [validate_file, ValidationResult.failure]
  | readOk size ext2 => simpa [validate_file] using vs_is_valid_iff strict ubr ext2
  | decodeRetryOk size ext2 => simpa [validate_file] using vs_is_valid_iff strict ubr ext2
  | decodeRetryFailed => simp [validate_file, ValidationResult.failure]
  | readError m => simp [validate_file, ValidationResult.failure]

/-- C2: with every external outcome held fixed, the strict run's errors
contain every error of the normal run, the strict error count is the normal
error count plus the normal warning count, and the strict run has no
warnings. -/
theorem c2_strict_mode_promotion (ubr : Bool) (ext : ExternalOutcomes) :
    (∀ e ∈ (validate_string false ubr ext).errors,
        e ∈ (validate_string true ubr ext).errors)
    ∧ (validate_string true ubr ext).errors.length =
        (validate_string false ubr ext).errors.length +
          (validate_string false ubr ext).warnings.length
    ∧ (validate_string true ubr ext).warnings = [] := by
  cases hp : ext.parse with
  | syntaxError m => simp [validate_string, hp, ValidationResult.failure]
  | otherError m => simp [validate_string, hp, ValidationResult.failure]
  | ok root =>
    by_cases hg : (ubr && !(has_critical_errors ext.schemaIssues)) = true
    · cases hbr : ext.businessRun with
      | ok issues =>
        refine ⟨?_, ?_, ?_⟩
        · intro e he
          simp only [validate_string, hp, hg, hbr] at he ⊢
          rcases List.mem_append.mp he with h | h
          · exact List.mem_append.mpr (Or.inl h)
          · exact List.mem_append.mpr (Or.inr (classify_strict_errors_mem _ _ h))
        · simp [validate_string, hp, hg, hbr, classify_strict_errors_length]
          omega
        · simp [validate_string, hp, hg, hbr, classify_strict_warnings_nil]
      | error m =>
        refine ⟨?_, ?_, ?_⟩ <;> simp [validate_string, hp, hg, hbr]
    · refine ⟨?_, ?_, ?_⟩ <;> simp [validate_string, hp, hg]

theorem mem_versionInfoList (i : ValidationIssue) (dv : Option String)
    (h : i ∈ versionInfoList dv) : i.error_code = some "DDEX_VERSION_DETECTED" := by
  cases dv with
  | none => simp [versionInfoList] at h
  | some v => simp [versionInfoList] at h; subst h; rfl

theorem mem_typeInfoList (i : ValidationIssue) (mt : Option String)
    (h : i ∈ typeInfoList mt) : i.error_code = some "MESSAGE_TYPE_DETECTED" := by
  cases mt with
  | none => simp [typeInfoList] at h
  | some t => simp [typeInfoList] at h; subst h; rfl

/-- C8: when the schema step reports a critical error code, no business-rule
checker runs — the result's errors are exactly the schema errors, there are
no warnings, and the info list holds only the detection messages. -/
theorem c8_critical_schema_skips_business (strict ubr : Bool)
    (ext : ExternalOutcomes) (root : XElem)
    (hp : ext.parse = ParseOutcome.ok root)
    (hc : has_critical_errors ext.schemaIssues = true) :
    (validate_string strict ubr ext).errors = ext.schemaIssues
    ∧ (validate_string strict ubr ext).warnings = []
    ∧ ∀ i ∈ (validate_string strict ubr ext).info,
        i.error_code = some "DDEX_VERSION_DETECTED" ∨
          i.error_code = some "MESSAGE_TYPE_DETECTED" := by
  refine ⟨?_, ?_, ?_⟩ <;> simp [validate_string, hp, hc]
  intro i hi
  rcases hi with h | h
  · exact Or.inl (mem_versionInfoList i _ h)
  · exact Or.inr (mem_typeInfoList i _ h)

/-- A `SCHEMA_NOT_FOUND` issue as `_validate_schema` emits it (concrete
instance used as test data). -/
def schemaNotFoundIssue : ValidationIssue :=
  { severity := SeverityLevel.ERROR
    message := "找不到DDEX版本 None 的XSD檔案"
    error_code := some "SCHEMA_NOT_FOUND"
    context := some "搜尋路徑: schemas/ddex"
    suggestion := some "請確認XSD檔案存在於正確的目錄中" }

/-- External outcomes of a run whose schema file is missing but whose input
parses, with the message type detected from the root tag. -/
def extSchemaMissing : ExternalOutcomes :=
  { parse := ParseOutcome.ok (XElem.node "NewReleaseMessage" [] none [])
    ddex_version := none
    message_type := some "NewReleaseMessage"
    schemaIssues := [schemaNotFoundIssue]
    businessRun := Except.ok []
    elapsed := none }

theorem c8_critical_schema_skips_business_witness :
    (validate_string false true extSchemaMissing).errors = extSchemaMissing.schemaIssues
    ∧ (validate_string false true extSchemaMissing).warnings = []
    ∧ ∀ i ∈ (validate_string false true extSchemaMissing).info,
        i.error_code = some "DDEX_VERSION_DETECTED" ∨
          i.error_code = some "MESSAGE_TYPE_DETECTED" :=
  c8_critical_schema_skips_business false true extSchemaMissing
    (XElem.node "NewReleaseMessage" [] none []) rfl (by decide)

/-- C7 counterexample: an input that fails the schema-file-not-found fatal
step has exactly one error and no warnings, but its info list is not empty
(the detected message type is still reported), contradicting the claimed
"zero info issues". -/
theorem c7_counterexample_schema_info :
    (validate_string false true extSchemaMissing).errors.map ValidationIssue.error_code
        = [some "SCHEMA_NOT_FOUND"]
    ∧ (validate_string false true extSchemaMissing).is_valid = false
    ∧ (validate_string false true extSchemaMissing).warnings = []
    ∧ (validate_string false true extSchemaMissing).info ≠ [] := by decide

/-- C7 as amended: the pre-schema fatal steps (unreadable file, undecodable
text, XML syntax/parse failure) each return exactly one ERROR with the
specific code, `is_valid=false`, zero warnings and zero info; a
schema-not-found / schema-load failure returns exactly one ERROR (the schema
issue), `is_valid=false` and zero warnings, but keeps the detection INFO
messages. -/
theorem c7_fatal_step_results :
    (∀ (strict ubr : Bool) (ext : ExternalOutcomes) (m : String),
      ext.parse = ParseOutcome.syntaxError m →
        (validate_string strict ubr ext).errors.map ValidationIssue.error_code
            = [some "XML_SYNTAX_ERROR"]
        ∧ (validate_string strict ubr ext).is_valid = false
        ∧ (validate_string strict ubr ext).warnings = []
        ∧ (validate_string strict ubr ext).info = [])
    ∧ (∀ (strict ubr : Bool) (ext : ExternalOutcomes) (m : String),
      ext.parse = ParseOutcome.otherError m →
        (validate_string strict ubr ext).errors.map ValidationIssue.error_code
            = [some "XML_PARSE_ERROR"]
        ∧ (validate_string strict ubr ext).is_valid = false
        ∧ (validate_string strict ubr ext).warnings = []
        ∧ (validate_string strict ubr ext).info = [])
    ∧ (∀ (strict ubr : Bool) (path : String),
        (validate_file strict ubr path FileReadOutcome.notFound).errors.map
            ValidationIssue.error_code = [some "FILE_NOT_FOUND"]
        ∧ (validate_file strict ubr path FileReadOutcome.notFound).is_valid = false
        ∧ (validate_file strict ubr path FileReadOutcome.notFound).warnings = []
        ∧ (validate_file strict ubr path FileReadOutcome.notFound).info = [])
    ∧ (∀ (strict ubr : Bool) (path : String),
        (validate_file strict ubr path FileReadOutcome.decodeRetryFailed).errors.map
            ValidationIssue.error_code = [some "FILE_ENCODING_ERROR"]
        ∧ (validate_file strict ubr path FileReadOutcome.decodeRetryFailed).is_valid = false
        ∧ (validate_file strict ubr path FileReadOutcome.decodeRetryFailed).warnings = []
        ∧ (validate_file strict ubr path FileReadOutcome.decodeRetryFailed).info = [])
    ∧ (∀ (strict ubr : Bool) (path m : String),
        (validate_file strict ubr path (FileReadOutcome.readError m)).errors.map
            ValidationIssue.error_code = [some "FILE_READ_ERROR"]
        ∧ (validate_file strict ubr path (FileReadOutcome.readError m)).is_valid = false
        ∧ (validate_file strict ubr path (FileReadOutcome.readError m)).warnings = []
        ∧ (validate_file strict ubr path (FileReadOutcome.readError m)).info = [])
    ∧ (∀ (strict ubr : Bool) (ext : ExternalOutcomes) (root : XElem) (e : ValidationIssue),
        ext.parse = ParseOutcome.ok root → ext.schemaIssues = [e] →
        (e.error_code = some "SCHEMA_NOT_FOUND" ∨ e.error_code = some "SCHEMA_LOAD_ERROR") →
        (validate_string strict ubr ext).errors = [e]
        ∧ (validate_string strict ubr ext).is_valid = false
        ∧ (validate_string strict ubr ext).warnings = []
        ∧ (validate_string strict ubr ext).info =
            versionInfoList ext.ddex_version ++ typeInfoList ext.message_type) := by
  refine ⟨?_, ?_, ?_, ?_, ?_, ?_⟩
  · intro strict ubr ext m hp
    simp [validate_string, hp, ValidationResult.failure]
  · intro strict ubr ext m hp
    simp [validate_string, hp, ValidationResult.failure]
  · intro strict ubr path
    simp [validate_file, ValidationResult.failure]
  · intro strict ubr path
    simp [validate_file, ValidationResult.failure]
  · intro strict ubr path m
    simp [validate_file, ValidationResult.failure]
  · intro strict ubr ext root e hp hs hcode
    have hc : has_critical_errors [e] = true := by
      rcases hcode with h | h <;> simp [has_critical_errors, h]
    refine ⟨?_, ?_, ?_, ?_⟩ <;> simp [validate_string, hp, hc, hs]

/-- External outcomes of a run whose input is not XML (`"not xml"`): lxml
raises an `XMLSyntaxError`. -/
def extNotXml : ExternalOutcomes :=
  { parse := ParseOutcome.syntaxError "Start tag expected"
    ddex_version := none
    message_type := none
    schemaIssues := []
    businessRun := Except.ok []
    elapsed := none }

theorem c7_fatal_step_results_witness :
    ((validate_string false true extNotXml).errors.map ValidationIssue.error_code
        = [some "XML_SYNTAX_ERROR"]
      ∧ (validate_string false true extNotXml).is_valid = false
      ∧ (validate_string false true extNotXml).warnings = []
      ∧ (validate_string false true extNotXml).info = [])
    ∧ ((validate_string false true extSchemaMissing).errors = [schemaNotFoundIssue]
      ∧ (validate_string false true extSchemaMissing).is_valid = false
      ∧ (validate_string false true extSchemaMissing).warnings = []
      ∧ (validate_string false true extSchemaMissing).info =
          versionInfoList none ++ typeInfoList (some "NewReleaseMessage")) :=
  ⟨c7_fatal_step_results.1 false true extNotXml "Start tag expected" rfl,
    c7_fatal_step_results.2.2.2.2.2 false true extSchemaMissing
      (XElem.node "NewReleaseMessage" [] none []) schemaNotFoundIssue rfl rfl
      (Or.inl rfl)⟩

theorem foldl_cons_rev {α β : Type} (f : α → β) (l : List α) (acc : List β) :
    l.reverse.foldl (fun acc st => f st :: acc) acc = l.map f ++ acc := by
  induction l generalizing acc with
  | nil => rfl
  | cons a l ih =>
    simp only [List.reverse_cons, List.foldl_append, List.foldl_cons, List.foldl_nil,
      List.map_cons]
    rw [ih]
    simp

/-- The path component the claim describes: the node's local tag name
(namespace stripped); when the node has more than one same-tag sibling under
the same parent, a 1-based positional suffix in `tag[n]` form; no suffix for
a sole occurrence.  (Second definition, written from the spec's words, to be
compared with `pathPartOf` from the source.) -/
def specPathPart (st : PathStep) : String :=
  match st.parentTags with
  | none => stripNs st.tag
  | some (sibTags, i) =>
    if 1 < (sibTags.filter (fun t => t == st.tag)).length then
      stripNs st.tag ++ "[" ++
        toString (1 + ((sibTags.take i).filter (fun t => t == st.tag)).length) ++ "]"
    else stripNs st.tag

/-- The claim's path contract: the `/`-separated root-to-node chain of
`specPathPart` components. -/
def specElementPath (root : XElem) (addr : List Nat) : Option String :=
  (chain root addr).map (fun steps => "/" ++ joinSlash (steps.map specPathPart))

theorem pathPartOf_eq_spec (st : PathStep) : pathPartOf st = specPathPart st := by
  cases st with
  | mk tag pt =>
    cases pt with
    | none => rfl
    | some p =>
      cases p with
      | mk sibTags i =>
        by_cases h : (sibTags.filter (fun t => t == tag)).length > 1 <;>
          simp [pathPartOf, specPathPart, h, Nat.add_comm]

/-- C9: the element-path resolver produces, for every node of a parsed tree
(every valid address; `none` on invalid addresses for both sides), exactly
the `/`-separated root-to-node chain of namespace-stripped local tag names
with a 1-based `tag[n]` suffix precisely for nodes having more than one
same-tag sibling — and, being a function of the tree and address, it is
deterministic. -/
theorem c9_element_path_refines_spec (root : XElem) (addr : List Nat) :
    get_element_path root addr = specElementPath root addr := by
  unfold get_element_path specElementPath
  cases h : chain root addr with
  | none => rfl
  | some steps =>
    show some ("/" ++ joinSlash
        (steps.reverse.foldl (fun acc st => pathPartOf st :: acc) [])) =
      some ("/" ++ joinSlash (steps.map specPathPart))
    rw [foldl_cons_rev pathPartOf steps [], List.append_nil,
      funext pathPartOf_eq_spec]

theorem parse_PT_eq_zero : parse_duration_to_seconds "PT" = some 0 := by
  show some (((searchNumBefore 'H' none []).getD 0 : ℚ) * 3600 +
      ((searchNumBefore 'M' none []).getD 0 : ℚ) * 60) = some 0
  norm_num [searchNumBefore]

theorem durationNodeCheck_PT (path : String) :
    durationNodeCheck { text := some "PT", path := path } =
      [mkShortDuration "PT" path 0] := by
  have h1 : pyStrip "PT" = "PT" := by decide
  have h2 : matchDURATION "PT" = true := by decide
  simp only [durationNodeCheck, textTruthy]
  norm_num [h1, h2, parse_PT_eq_zero]
  decide

/-- C10: the bare string `PT` matches the DURATION pattern, parses to a total
of 0 seconds, and a `Duration` element containing `PT` therefore produces no
`INVALID_DURATION` error but exactly one `UNUSUALLY_SHORT_DURATION` warning
(0 s is below the 1-second bound). -/
theorem c10_pt_duration_short_warning :
    matchDURATION "PT" = true
    ∧ parse_duration_to_seconds "PT" = some 0
    ∧ (∀ path : String,
        durationNodeCheck { text := some "PT", path := path } = [mkShortDuration "PT" path 0])
    ∧ (∀ path : String,
        ¬ some "INVALID_DURATION" ∈
          (durationNodeCheck { text := some "PT", path := path }).map
            ValidationIssue.error_code)
    ∧ validate_durations
        (XElem.node "NewReleaseMessage" [] none [XElem.node "Duration" [] (some "PT") []])
        = [mkShortDuration "PT" "/NewReleaseMessage/Duration" 0] := by
  refine ⟨by decide, parse_PT_eq_zero, durationNodeCheck_PT, ?_, ?_⟩
  · intro path
    rw [durationNodeCheck_PT path]
    simp [mkShortDuration]
  · have hn : nodesLocal
        (XElem.node "NewReleaseMessage" [] none [XElem.node "Duration" [] (some "PT") []])
        "Duration" = [{ text := some "PT", path := "/NewReleaseMessage/Duration" }] := by
      decide
    simp [validate_durations, hn, durationNodeCheck_PT]

/-- A document whose only identifier element is an `ISAN` with no text
content. -/
def docEmptyIsan : XElem :=
  XElem.node "NewReleaseMessage" [] none [XElem.node "ISAN" [] none []]

/-- C3 counterexample: the document contains exactly one `ISAN` element,
present but without text content, yet `validate_identifiers` produces no
issue at all — in particular no `EMPTY_ISAN` ERROR, refuting "for every
identifier kind ... always produces an ERROR issue with code
`EMPTY_<KIND>`". -/
theorem c3_counterexample_empty_isan :
    nodesLocal docEmptyIsan "ISAN" =
      [{ text := none, path := "/NewReleaseMessage/ISAN" }]
    ∧ (∀ cy : Nat, validate_identifiers docEmptyIsan cy = []) := by
  refine ⟨by decide, fun cy => ?_⟩
  show ((nodesLocal docEmptyIsan "GRid").flatMap gridNodeCheck)
      ++ ((nodesLocal docEmptyIsan "ISRC").flatMap (isrcNodeCheck cy))
      ++ ((nodesLocal docEmptyIsan "ISAN").flatMap isanNodeCheck)
      ++ ((nodesLocal docEmptyIsan "VISAN").flatMap visanNodeCheck)
      ++ ((nodesLocal docEmptyIsan "ICPN").flatMap icpnNodeCheck) = []
  have hg : nodesLocal docEmptyIsan "GRid" = [] := by decide
  have hi : nodesLocal docEmptyIsan "ISRC" = [] := by decide
  have ha : nodesLocal docEmptyIsan "ISAN" =
      [{ text := none, path := "/NewReleaseMessage/ISAN" }] := by decide
  have hv : nodesLocal docEmptyIsan "VISAN" = [] := by decide
  have hc : nodesLocal docEmptyIsan "ICPN" = [] := by decide
  simp [hg, hi, ha, hv, hc, isanNodeCheck, textTruthy]

/-- C3 as amended: only `GRid` and `ISRC` elements with empty text produce an
`EMPTY_<KIND>` ERROR (an issue distinct from the `INVALID_<KIND>` format
error); an empty `ISAN`, `VISAN` or `ICPN` element produces no issue; and for
every identifier kind no single node ever yields both the `EMPTY_<KIND>` and
the `INVALID_<KIND>` issue. -/
theorem c3_empty_identifier_issues :
    (∀ t : Option String, ∀ path : String, textTruthy t = false →
      gridNodeCheck { text := t, path := path } = [mkEmptyGrid path]
      ∧ ∀ cy : Nat, isrcNodeCheck cy { text := t, path := path } = [mkEmptyIsrc path])
    ∧ (∀ t : Option String, ∀ path : String, textTruthy t = false →
      isanNodeCheck { text := t, path := path } = []
      ∧ visanNodeCheck { text := t, path := path } = []
      ∧ icpnNodeCheck { text := t, path := path } = [])
    ∧ (∀ n : NodeV,
      ¬(some "EMPTY_GRID" ∈ (gridNodeCheck n).map ValidationIssue.error_code
        ∧ some "INVALID_GRID" ∈ (gridNodeCheck n).map ValidationIssue.error_code))
    ∧ (∀ (cy : Nat) (n : NodeV),
      ¬(some "EMPTY_ISRC" ∈ (isrcNodeCheck cy n).map ValidationIssue.error_code
        ∧ some "INVALID_ISRC" ∈ (isrcNodeCheck cy n).map ValidationIssue.error_code)) := by
  refine ⟨?_, ?_, ?_, ?_⟩
  · intro t path ht
    exact ⟨by simp [gridNodeCheck, ht], fun cy => by simp [isrcNodeCheck, ht]⟩
  · intro t path ht
    exact ⟨by simp [isanNodeCheck, ht], by simp [visanNodeCheck, ht],
      by simp [icpnNodeCheck, ht]⟩
  · rintro n ⟨he, hi⟩
    rcases List.mem_map.mp he with ⟨a, ha, hac⟩
    rcases List.mem_map.mp hi with ⟨b, hb, hbc⟩
    by_cases ht : textTruthy n.text = true
    · cases hm : matchGRID (pyStrip (n.text.getD "")) with
      | true => simp [gridNodeCheck, ht, hm] at ha
      | false =>
        simp [gridNodeCheck, ht, hm] at ha
        rw [ha] at hac
        simp [mkInvalidGrid] at hac
    · simp only [Bool.not_eq_true] at ht
      simp [gridNodeCheck, ht] at hb
      rw [hb] at hbc
      simp [mkEmptyGrid] at hbc
  · rintro cy n ⟨he, hi⟩
    rcases List.mem_map.mp he with ⟨a, ha, hac⟩
    rcases List.mem_map.mp hi with ⟨b, hb, hbc⟩
    by_cases ht : textTruthy n.text = true
    · cases hm : matchISRC (pyStrip (n.text.getD "")) with
      | false =>
        simp [isrcNodeCheck, ht, hm] at ha
        rw [ha] at hac
        simp [mkInvalidIsrc] at hac
      | true =>
        simp [isrcNodeCheck, ht, hm] at ha
        rw [ha.2] at hac
        simp [mkSuspiciousIsrcYear] at hac
    · simp only [Bool.not_eq_true] at ht
      simp [isrcNodeCheck, ht] at hb
      rw [hb] at hbc
      simp [mkEmptyIsrc] at hbc

/-- The `i`-th decimal digit of a digit string (claim-side view of the
checksum formula). -/
def digAt (s : String) (i : Nat) : Nat :=
  (s.toList.map (fun c => c.toNat - 48)).getD i 0

theorem range11_even : (List.range 11).filter (fun i => i % 2 == 0) = [0, 2, 4, 6, 8, 10] := by
  decide

theorem range11_odd : (List.range 11).filter (fun i => i % 2 == 1) = [1, 3, 5, 7, 9] := by
  decide

theorem range12_even : (List.range 12).filter (fun i => i % 2 == 0) = [0, 2, 4, 6, 8, 10] := by
  decide

theorem range12_odd : (List.range 12).filter (fun i => i % 2 == 1) = [1, 3, 5, 7, 9, 11] := by
  decide

/-- C6: a 12-digit ICPN passes the checksum check iff its digit at position
11 equals `(10 - ((3·Σ(even positions 0..10) + Σ(odd positions 1..9)) % 10)) % 10`;
for a 13-digit ICPN the weights are swapped (weight 1 on even, weight 3 on
odd positions over 0..11, check digit at position 12); and a pattern-matching
ICPN value failing the checksum produces exactly one `INVALID_ICPN_CHECKSUM`
issue of severity WARNING, never an ERROR. -/
theorem c6_icpn_checksum_formula :
    (∀ s : String, s.toList.all Char.isDigit = true → s.toList.length = 12 →
      (validate_icpn_checksum s = true ↔
        digAt s 11 =
          (10 - ((3 * (((List.range 11).filter (fun i => i % 2 == 0)).map (digAt s)).sum
            + (((List.range 11).filter (fun i => i % 2 == 1)).map (digAt s)).sum) % 10)) % 10))
    ∧ (∀ s : String, s.toList.all Char.isDigit = true → s.toList.length = 13 →
      (validate_icpn_checksum s = true ↔
        digAt s 12 =
          (10 - (((((List.range 12).filter (fun i => i % 2 == 0)).map (digAt s)).sum
            + 3 * (((List.range 12).filter (fun i => i % 2 == 1)).map (digAt s)).sum) % 10)) % 10))
    ∧ (∀ t path : String, matchICPN (pyStrip t) = true →
        validate_icpn_checksum (pyStrip t) = false →
        icpnNodeCheck { text := some t, path := path } = [mkIcpnChecksumWarn (pyStrip t) path]
        ∧ (mkIcpnChecksumWarn (pyStrip t) path).severity = SeverityLevel.WARNING) := by
  refine ⟨?_, ?_, ?_⟩
  · intro s hall hlen
    have hds : digitsOf s = some (s.toList.map (fun c => c.toNat - 48)) := by
      simp [digitsOf, hall]
      exact fun x hx => List.all_eq_true.mp hall x hx
    rw [range11_even, range11_odd]
    simp only [validate_icpn_checksum, hds, List.length_map, hlen, sumAtIdx,
      List.map_cons, List.map_nil, List.sum_cons, List.sum_nil, digAt]
    norm_num [beq_iff_eq]
    constructor <;> intro h <;> omega
  · intro s hall hlen
    have hds : digitsOf s = some (s.toList.map (fun c => c.toNat - 48)) := by
      simp [digitsOf, hall]
      exact fun x hx => List.all_eq_true.mp hall x hx
    rw [range12_even, range12_odd]
    simp only [validate_icpn_checksum, hds, List.length_map, hlen, sumAtIdx,
      List.map_cons, List.map_nil, List.sum_cons, List.sum_nil, digAt]
    norm_num [beq_iff_eq]
    constructor <;> intro h <;> omega
  · intro t path hmatch hcs
    have ht : ¬(t = "") := by
      intro h
      rw [h] at hmatch
      exact absurd hmatch (by decide)
    exact ⟨by simp [icpnNodeCheck, textTruthy, ht, hmatch, hcs], rfl⟩

theorem c6_icpn_checksum_formula_witness :
    (validate_icpn_checksum "036000291452" = true ↔
      digAt "036000291452" 11 =
        (10 - ((3 * (((List.range 11).filter (fun i => i % 2 == 0)).map
            (digAt "036000291452")).sum
          + (((List.range 11).filter (fun i => i % 2 == 1)).map
            (digAt "036000291452")).sum) % 10)) % 10)
    ∧ (validate_icpn_checksum "4006381333931" = true ↔
      digAt "4006381333931" 12 =
        (10 - (((((List.range 12).filter (fun i => i % 2 == 0)).map
            (digAt "4006381333931")).sum
          + 3 * (((List.range 12).filter (fun i => i % 2 == 1)).map
            (digAt "4006381333931")).sum) % 10)) % 10)
    ∧ (icpnNodeCheck { text := some "036000291453", path := "/M/ICPN" }
          = [mkIcpnChecksumWarn (pyStrip "036000291453") "/M/ICPN"]
        ∧ (mkIcpnChecksumWarn (pyStrip "036000291453") "/M/ICPN").severity
            = SeverityLevel.WARNING) :=
  ⟨c6_icpn_checksum_formula.1 "036000291452" (by decide) (by decide),
    c6_icpn_checksum_formula.2.1 "4006381333931" (by decide) (by decide),
    c6_icpn_checksum_formula.2.2 "036000291453" "/M/ICPN" (by decide) (by decide)⟩

theorem str_prefix_inj (p a b : String) (h : p ++ a = p ++ b) : a = b := by
  have hd : (p ++ a).data = (p ++ b).data := by rw [h]
  rw [String.data_append, String.data_append] at hd
  cases a with
  | mk da =>
    cases b with
    | mk db =>
      have := List.append_cancel_left hd
      simp only at this
      rw [this]

theorem beq_append_left (p a b : String) : (p ++ a == p ++ b) = (a == b) := by
  by_cases h : a = b
  · subst h; simp
  · have hne : ¬(p ++ a = p ++ b) := fun hc => h (str_prefix_inj p a b hc)
    simp [h, hne]

theorem filterOverMap {α β : Type} (f : α → β) (p : β → Bool) (l : List α) :
    (l.map f).filter p = (l.filter (fun a => p (f a))).map f := by
  induction l with
  | nil => rfl
  | cons a l ih => by_cases h : p (f a) = true <;> simp [List.filter_cons, h, ih]

theorem length_filter_eq_of_nodup {l : List String} (hl : l.Nodup) (v : String) :
    (l.filter (fun x => x == v)).length = if v ∈ l then 1 else 0 := by
  induction l with
  | nil => simp
  | cons a l ih =>
    rcases List.nodup_cons.mp hl with ⟨ha, hl2⟩
    by_cases h : a = v
    · subst h
      simp [List.filter_cons, ih hl2, ha]
    · simp [List.filter_cons, h, ih hl2, Ne.symm h]

theorem undef_count_aux (refs anchors : List String) (href : refs.Nodup) (v : String) :
    (((refs.filter (fun x => !(anchors.contains x))).map mkUndefinedRef).filter
      (fun i => i.error_code == some "UNDEFINED_RESOURCE_REFERENCE"
        && i.context == some ("資源引用: " ++ v))).length
    = if v ∈ refs ∧ v ∉ anchors then 1 else 0 := by
  rw [filterOverMap]
  have hfun : (fun w => (mkUndefinedRef w).error_code == some "UNDEFINED_RESOURCE_REFERENCE"
      && (mkUndefinedRef w).context == some ("資源引用: " ++ v))
        = (fun w => w == v) := by
    funext w
    simp [mkUndefinedRef, beq_append_left]
  rw [hfun, List.length_map, length_filter_eq_of_nodup (List.Nodup.filter _ href) v]
  have hiff : v ∈ refs.filter (fun x => !(anchors.contains x)) ↔ (v ∈ refs ∧ v ∉ anchors) := by
    simp [List.mem_filter]
  rw [if_congr hiff rfl rfl]

theorem unused_count_aux (refs anchors : List String) (hanc : anchors.Nodup) (v : String) :
    (((anchors.filter (fun x => !(refs.contains x))).map mkUnusedRes).filter
      (fun i => i.error_code == some "UNUSED_RESOURCE"
        && i.context == some ("資源錨點: " ++ v))).length
    = if v ∈ anchors ∧ v ∉ refs then 1 else 0 := by
  rw [filterOverMap]
  have hfun : (fun w => (mkUnusedRes w).error_code == some "UNUSED_RESOURCE"
      && (mkUnusedRes w).context == some ("資源錨點: " ++ v))
        = (fun w => w == v) := by
    funext w
    simp [mkUnusedRes, beq_append_left]
  rw [hfun, List.length_map, length_filter_eq_of_nodup (List.Nodup.filter _ hanc) v]
  have hiff : v ∈ anchors.filter (fun x => !(refs.contains x)) ↔ (v ∈ anchors ∧ v ∉ refs) := by
    simp [List.mem_filter]
  rw [if_congr hiff rfl rfl]

theorem unused_filtered_by_undef_pred (l : List String) (v : String) :
    ((l.map mkUnusedRes).filter
      (fun i => i.error_code == some "UNDEFINED_RESOURCE_REFERENCE"
        && i.context == some ("資源引用: " ++ v))) = [] := by
  rw [filterOverMap]
  have hfun : (fun w => (mkUnusedRes w).error_code == some "UNDEFINED_RESOURCE_REFERENCE"
      && (mkUnusedRes w).context == some ("資源引用: " ++ v)) = (fun _ => false) := by
    funext w
    simp [mkUnusedRes]
  rw [hfun]
  simp

theorem undef_filtered_by_unused_pred (l : List String) (v : String) :
    ((l.map mkUndefinedRef).filter
      (fun i => i.error_code == some "UNUSED_RESOURCE"
        && i.context == some ("資源錨點: " ++ v))) = [] := by
  rw [filterOverMap]
  have hfun : (fun w => (mkUndefinedRef w).error_code == some "UNUSED_RESOURCE"
      && (mkUndefinedRef w).context == some ("資源錨點: " ++ v)) = (fun _ => false) := by
    funext w
    simp [mkUndefinedRef]
  rw [hfun]
  simp

/-- C5: per value, the cross-reference check emits exactly one
`UNDEFINED_RESOURCE_REFERENCE` ERROR iff the value is referenced but not
defined, exactly one `UNUSED_RESOURCE` WARNING iff it is defined but never
referenced, and nothing when it is both defined and referenced. -/
theorem c5_resource_reference_integrity (root : XElem) (v : String) :
    ((validate_resource_references root).filter (fun i =>
        i.error_code == some "UNDEFINED_RESOURCE_REFERENCE"
          && i.context == some ("資源引用: " ++ v))).length
      = (if v ∈ resourceRefs root ∧ v ∉ resourceAnchors root then 1 else 0)
    ∧ ((validate_resource_references root).filter (fun i =>
        i.error_code == some "UNUSED_RESOURCE"
          && i.context == some ("資源錨點: " ++ v))).length
      = (if v ∈ resourceAnchors root ∧ v ∉ resourceRefs root then 1 else 0)
    ∧ (v ∈ resourceRefs root → v ∈ resourceAnchors root →
        ((validate_resource_references root).filter (fun i =>
          i.error_code == some "UNDEFINED_RESOURCE_REFERENCE"
            && i.context == some ("資源引用: " ++ v))) = []
        ∧ ((validate_resource_references root).filter (fun i =>
          i.error_code == some "UNUSED_RESOURCE"
            && i.context == some ("資源錨點: " ++ v))) = []) := by
  have hrefs : (resourceRefs root).Nodup := List.nodup_dedup _
  have hanc : (resourceAnchors root).Nodup := List.nodup_dedup _
  have h1 : ((validate_resource_references root).filter (fun i =>
        i.error_code == some "UNDEFINED_RESOURCE_REFERENCE"
          && i.context == some ("資源引用: " ++ v))).length
      = (if v ∈ resourceRefs root ∧ v ∉ resourceAnchors root then 1 else 0) := by
    unfold validate_resource_references
    rw [List.filter_append, List.length_append, unused_filtered_by_undef_pred,
      undef_count_aux _ _ hrefs v]
    simp
  have h2 : ((validate_resource_references root).filter (fun i =>
        i.error_code == some "UNUSED_RESOURCE"
          && i.context == some ("資源錨點: " ++ v))).length
      = (if v ∈ resourceAnchors root ∧ v ∉ resourceRefs root then 1 else 0) := by
    unfold validate_resource_references
    rw [List.filter_append, List.length_append, undef_filtered_by_unused_pred,
      unused_count_aux _ _ hanc v]
    simp
  refine ⟨h1, h2, fun hr ha2 => ⟨?_, ?_⟩⟩
  · rw [if_neg (fun hc => hc.2 ha2)] at h1
    exact List.length_eq_zero.mp h1
  · rw [if_neg (fun hc => hc.2 hr)] at h2
    exact List.length_eq_zero.mp h2

theorem pred_mkDupIsrc (w p v : String) :
    ((mkDupIsrc w p).error_code == some "DUPLICATE_ISRC"
      && (mkDupIsrc w p).context == some ("ISRC值: " ++ v)) = (w == v) := by
  simp [mkDupIsrc, beq_append_left]

theorem dupCheckIsrc_filter (v : String) (seen : List String) (ns : List NodeV) :
    ((dupCheckIsrc seen ns).filter (fun i =>
        i.error_code == some "DUPLICATE_ISRC" && i.context == some ("ISRC值: " ++ v)))
      = (if v ∈ seen then ns.filter (fun n => strippedVal n == some v)
          else (ns.filter (fun n => strippedVal n == some v)).drop 1).map
          (fun n => mkDupIsrc v n.path) := by
  induction ns generalizing seen with
  | nil => simp [dupCheckIsrc]
  | cons n rest ih =>
    cases hs : strippedVal n with
    | none =>
      simp only [dupCheckIsrc, hs, List.filter_cons]
      rw [ih seen]
      simp [hs]
    | some w =>
      by_cases hw : w = v
      · subst hw
        by_cases hseen : w ∈ seen
        · simp only [dupCheckIsrc, hs, hseen, if_true, List.filter_cons, pred_mkDupIsrc]
          rw [ih seen]
          simp [hs, hseen]
        · simp only [dupCheckIsrc, hs, hseen, if_false, List.filter_cons]
          rw [ih (w :: seen)]
          simp [hs, hseen, List.mem_cons]
      · have hvw : ¬ v = w := fun h => hw h.symm
        by_cases hseen : w ∈ seen
        · simp only [dupCheckIsrc, hs, hseen, if_true, List.filter_cons, pred_mkDupIsrc]
          rw [ih seen]
          simp [hs, hw, hvw]
        · simp only [dupCheckIsrc, hs, hseen, if_false, List.filter_cons]
          rw [ih (w :: seen)]
          simp [hs, hw, hvw, List.mem_cons]

theorem dupCheckGrid_filter_isrc (v : String) (seen : List String) (ns : List NodeV) :
    ((dupCheckGrid seen ns).filter (fun i =>
      i.error_code == some "DUPLICATE_ISRC" && i.context == some ("ISRC值: " ++ v))) = [] := by
  induction ns generalizing seen with
  | nil => rfl
  | cons n rest ih =>
    cases hs : strippedVal n with
    | none => simp only [dupCheckGrid, hs]; exact ih seen
    | some w =>
      by_cases hseen : w ∈ seen
      · simp only [dupCheckGrid, hs, hseen, if_true, List.filter_cons]
        rw [ih seen]
        simp [mkDupGrid]
      · simp only [dupCheckGrid, hs, hseen, if_false]
        exact ih (w :: seen)

/-- C4: for a document in which the same non-empty stripped ISRC value is the
text of `k > 1` ISRC elements, the duplicate-identifier check emits exactly
the `DUPLICATE_ISRC` errors for occurrences 2..k — each carrying the path of
that duplicate occurrence, the first occurrence never flagged — so exactly
`k − 1` of them. -/
theorem c4_duplicate_isrc (root : XElem) (v : String) (k : Nat) (hv : ¬(v = ""))
    (hk : ((nodesLocal root "ISRC").filter (fun n => strippedVal n == some v)).length = k)
    (hk1 : 1 < k) :
    ((validate_duplicate_identifiers root).filter (fun i =>
        i.error_code == some "DUPLICATE_ISRC" && i.context == some ("ISRC值: " ++ v)))
      = (((nodesLocal root "ISRC").filter (fun n => strippedVal n == some v)).drop 1).map
          (fun n => mkDupIsrc v n.path)
    ∧ ((validate_duplicate_identifiers root).filter (fun i =>
        i.error_code == some "DUPLICATE_ISRC" && i.context == some ("ISRC值: " ++ v))).length
      = k - 1 := by
  have hmain : ((validate_duplicate_identifiers root).filter (fun i =>
        i.error_code == some "DUPLICATE_ISRC" && i.context == some ("ISRC值: " ++ v)))
      = (((nodesLocal root "ISRC").filter (fun n => strippedVal n == some v)).drop 1).map
          (fun n => mkDupIsrc v n.path) := by
    unfold validate_duplicate_identifiers
    rw [List.filter_append, dupCheckIsrc_filter v [] (nodesLocal root "ISRC"),
      dupCheckGrid_filter_isrc v [] (nodesLocal root "GRid"), List.append_nil]
    simp
  refine ⟨hmain, ?_⟩
  rw [hmain, List.length_map, List.length_drop, hk]

/-- A document with three identical ISRC values. -/
def docTripleIsrc : XElem :=
  XElem.node "NewReleaseMessage" [] none
    [XElem.node "ISRC" [] (some "USRC17607839") [],
     XElem.node "ISRC" [] (some "USRC17607839") [],
     XElem.node "ISRC" [] (some "USRC17607839") []]

theorem c4_duplicate_isrc_witness :
    ((validate_duplicate_identifiers docTripleIsrc).filter (fun i =>
        i.error_code == some "DUPLICATE_ISRC"
          && i.context == some ("ISRC值: " ++ "USRC17607839")))
      = (((nodesLocal docTripleIsrc "ISRC").filter
            (fun n => strippedVal n == some "USRC17607839")).drop 1).map
          (fun n => mkDupIsrc "USRC17607839" n.path)
    ∧ ((validate_duplicate_identifiers docTripleIsrc).filter (fun i =>
        i.error_code == some "DUPLICATE_ISRC"
          && i.context == some ("ISRC值: " ++ "USRC17607839"))).length
      = 3 - 1 :=
  c4_duplicate_isrc docTripleIsrc "USRC17607839" 3 (by decide) (by decide) (by decide)

theorem c1_is_valid_iff_no_errors_witness :
    ((validate_string false true extNotXml).is_valid = true ↔
      (validate_string false true extNotXml).errors = [])
    ∧ ((validate_file false true "a.xml" FileReadOutcome.notFound).is_valid = true ↔
      (validate_file false true "a.xml" FileReadOutcome.notFound).errors = []) :=
  c1_is_valid_iff_no_errors false true extNotXml "a.xml" FileReadOutcome.notFound

theorem c2_strict_mode_promotion_witness :
    (∀ e ∈ (validate_string false true extSchemaMissing).errors,
        e ∈ (validate_string true true extSchemaMissing).errors)
    ∧ (validate_string true true extSchemaMissing).errors.length =
        (validate_string false true extSchemaMissing).errors.length +
          (validate_string false true extSchemaMissing).warnings.length
    ∧ (validate_string true true extSchemaMissing).warnings = [] :=
  c2_strict_mode_promotion true extSchemaMissing

theorem c3_empty_identifier_issues_witness :
    gridNodeCheck { text := none, path := "/M/GRid" } = [mkEmptyGrid "/M/GRid"]
    ∧ isanNodeCheck { text := none, path := "/M/ISAN" } = []
    ∧ ¬(some "EMPTY_GRID" ∈
          (gridNodeCheck { text := some "X", path := "/M/GRid" }).map
            ValidationIssue.error_code
        ∧ some "INVALID_GRID" ∈
          (gridNodeCheck { text := some "X", path := "/M/GRid" }).map
            ValidationIssue.error_code) :=
  ⟨(c3_empty_identifier_issues.1 none "/M/GRid" rfl).1,
    (c3_empty_identifier_issues.2.1 none "/M/ISAN" rfl).1,
    c3_empty_identifier_issues.2.2.1 { text := some "X", path := "/M/GRid" }⟩

/-- A document with a dangling reference `A1`, a used anchor `A2` and an
unused anchor `A3`. -/
def docRefs : XElem :=
  XElem.node "NewReleaseMessage" [] none
    [XElem.node "ReleaseResourceReference" [] (some "A1") [],
     XElem.node "ReleaseResourceReference" [] (some "A2") [],
     XElem.node "SoundRecording" [("ResourceReference", "A2")] none [],
     XElem.node "Video" [("ResourceReference", "A3")] none []]

theorem c5_resource_reference_integrity_witness :
    ((validate_resource_references docRefs).filter (fun i =>
        i.error_code == some "UNDEFINED_RESOURCE_REFERENCE"
          && i.context == some ("資源引用: " ++ "A2"))) = []
    ∧ ((validate_resource_references docRefs).filter (fun i =>
        i.error_code == some "UNUSED_RESOURCE"
          && i.context == some ("資源錨點: " ++ "A2"))) = [] :=
  (c5_resource_reference_integrity docRefs "A2").2.2 (by decide) (by decide)

theorem c9_element_path_refines_spec_witness :
    get_element_path docTripleIsrc [1] = specElementPath docTripleIsrc [1] :=
  c9_element_path_refines_spec docTripleIsrc [1]

theorem c10_pt_duration_short_warning_witness :
    durationNodeCheck { text := some "PT", path := "/M/Duration" } =
      [mkShortDuration "PT" "/M/Duration" 0] :=
  c10_pt_duration_short_warning.2.2.1 "/M/Duration"
